import Mathlib

/-!
Shallow embedding of the JWT-verification core and the CRUD persistence
helpers of the `crud-api` service (`src/crud-api/main.py`,
`src/crud-api/crud.py`), together with theorems settling the spec claims.

Modelling conventions:
* JSON values decoded by `response.json()` and by the `jose` library are an
  inductive `Json`; Python truthiness (`if x:`) is `Json.truthy`.
* `datetime.utcnow()` instants are natural numbers (seconds); one hour is
  3600.  A Python `datetime` object is always truthy, so the cache field
  `expires_at` is `Option Nat` and its truthiness is `Option.isSome`.
* The network (`requests.get` + `raise_for_status` + `.json()`) is a
  parameter `fetch : Except String Json`; `Except.error e` is a raised
  `requests.RequestException` with message `e`.
* The external `jose` calls `jwt.get_unverified_header` and `jwt.decode`
  (RS256 signature / audience / issuer / expiry checking) are oracle
  parameters; an exception they raise is `Except.error`.
* An uncaught Python exception (a crash, HTTP 500) is `VResult.crash`,
  distinct from a raised `HTTPException` (`VResult.httpError`).
-/

namespace CrudApi

/-- JSON values as produced by `response.json()` / the `jose` library. -/
inductive Json where
  | null
  | bool (b : Bool)
  | num (n : Int)
  | str (s : String)
  | arr (xs : List Json)
  | obj (fields : List (String × Json))

/-- Python truthiness of a decoded JSON value (`if x:`). -/
def Json.truthy : Json → Bool
  | .null => false
  | .bool b => b
  | .num n => n != 0
  | .str s => s != ""
  | .arr xs => !xs.isEmpty
  | .obj fs => !fs.isEmpty

/-- Python `dict.get(k)` (also decides `k in dict`): first binding wins. -/
def Json.get : Json → String → Option Json
  | .obj fs, k => (fs.find? (fun p => p.1 == k)).map (fun p => p.2)
  | _, _ => none

/-- Python `str.isspace` characters relevant to `str.split()`. -/
def pyIsSpace (c : Char) : Bool :=
  c == ' ' || c == '\t' || c == '\n' || c == '\r' || c == '\x0b' || c == '\x0c'

/-- Accumulator pass over the characters for `pySplit`: `cur` holds the
characters of the token currently being read, in reverse. -/
def pySplitAux (cur : List Char) : List Char → List String
  | [] => if cur.isEmpty then [] else [String.mk cur.reverse]
  | c :: rest =>
    if pyIsSpace c then
      if cur.isEmpty then pySplitAux [] rest
      else String.mk cur.reverse :: pySplitAux [] rest
    else pySplitAux (c :: cur) rest

/-- Python `str.split()` with no argument: split on whitespace runs,
discarding empty fields. -/
def pySplit (s : String) : List String :=
  pySplitAux [] s.data

/-- Python `str.lower()` (ASCII case folding suffices for `"bearer"`). -/
def pyLower (s : String) : String :=
  String.mk (s.data.map Char.toLower)

/-- A raised `fastapi.HTTPException` (status code and detail string). -/
structure HttpError where
  status : Nat
  detail : String

/-- The process-wide `_jwks_cache` dict: `{"data": None, "expires_at": None}`
initially (`main.py` line 72). -/
structure Cache where
  data : Option Json
  expiresAt : Option Nat

/-- Outcome of one `get_jwks()` call: the returned value or raised
`HTTPException`, the cache state afterwards, and whether a network fetch
was performed. -/
structure JwksOutcome where
  result : Except HttpError Json
  cache : Cache
  fetched : Bool

/-- The cache-hit test of `get_jwks` (`main.py` line 77):
`_jwks_cache["data"] and _jwks_cache["expires_at"] and now < _jwks_cache["expires_at"]`.
`data` is truthy iff it is not `None` and not a falsy JSON value; a
`datetime` is always truthy, so `expires_at` is truthy iff not `None`. -/
def cacheHit (now : Nat) (c : Cache) : Bool :=
  (match c.data with
    | some d => d.truthy
    | none => false) &&
  (match c.expiresAt with
    | some e => decide (now < e)
    | none => false)

/-- `get_jwks()` (`main.py` lines 74-89).  On a cache hit the cached data is
returned with no fetch; otherwise the fetch result is cached wholesale
(`expires_at = now + 1 hour`) and returned, and a `RequestException`
becomes an HTTP 503. -/
def get_jwks (now : Nat) (fetch : Except String Json) (c : Cache) : JwksOutcome :=
  if cacheHit now c then
    { result := .ok (c.data.getD .null), cache := c, fetched := false }
  else
    match fetch with
    | .ok jwks =>
        { result := .ok jwks
          cache := { data := some jwks, expiresAt := some (now + 3600) }
          fetched := true }
    | .error e =>
        { result := .error ⟨503, "Unable to fetch JWKS: " ++ e⟩
          cache := c
          fetched := true }

/-- The RSA key dict assembled at `main.py` lines 140-146. -/
structure RsaKey where
  kty : String
  kid : String
  use : String
  n : String
  e : String

/-- The required string fields of a key entry, in the order written in the
source set literal `{"kid", "kty", "use", "n", "e"}` (`main.py` line 123).
CPython iterates a `set` in an unspecified order; no theorem below depends
on which missing field is reported first. -/
def requiredFields : List String := ["kid", "kty", "use", "n", "e"]

/-- The per-field loop of `main.py` lines 132-136: each required field must
exist and be a string, else a 401 `Invalid JWKS format` detail. -/
def checkFields (key : Json) : List String → Except String Unit
  | [] => .ok ()
  | f :: rest =>
    match key.get f with
    | none =>
        .error ("Invalid JWKS format: missing required field '" ++ f ++ "' in key")
    | some (.str _) => checkFields key rest
    | some _ =>
        .error ("Invalid JWKS format: field '" ++ f ++ "' must be a string")

/-- Validation of one key entry (`main.py` lines 128-136): it must be a
dict, and each required field must exist and be a string. -/
def checkKey (key : Json) : Except String Unit :=
  match key with
  | .obj _ => checkFields key requiredFields
  | _ => .error "Invalid JWKS format: key entry must be a dict"

/-- A key entry passes the strict schema of `main.py` lines 128-136. -/
def keyValid (key : Json) : Bool :=
  match checkKey key with
  | .ok _ => true
  | .error _ => false

/-- The comparison `key["kid"] == unverified_header.get("kid")`
(`main.py` line 139).  After validation `key["kid"]` is a Python `str`,
which compares equal only to an equal `str` (never to `None` or a value of
another type). -/
def kidMatches (key : Json) (target : Option Json) : Bool :=
  match key.get "kid", target with
  | some (.str s), some (.str t) => s == t
  | _, _ => false

/-- The key dict built at `main.py` lines 140-146 from a validated entry. -/
def rsaKeyOf (key : Json) : RsaKey :=
  let strOf : Option Json → String := fun j =>
    match j with
    | some (.str s) => s
    | _ => ""
  { kty := strOf (key.get "kty")
    kid := strOf (key.get "kid")
    use := strOf (key.get "use")
    n := strOf (key.get "n")
    e := strOf (key.get "e") }

/-- Outcome of the key-scan loop of `main.py` lines 125-147. -/
inductive ScanResult where
  | malformed (detail : String)
  | found (k : RsaKey)
  | noMatch

/-- The loop of `main.py` lines 125-147: each entry is validated in order;
the first validation failure raises; the first entry whose `kid` equals the
token header's `kid` is selected and the loop `break`s, so later entries
are never inspected; falling off the end leaves `rsa_key = {}` (falsy). -/
def scanKeys (target : Option Json) : List Json → ScanResult
  | [] => .noMatch
  | key :: rest =>
    match checkKey key with
    | .error d => .malformed d
    | .ok _ =>
      if kidMatches key target then .found (rsaKeyOf key)
      else scanKeys target rest

/-- The structural checks on the fetched key-set value performed at
`main.py` lines 113-120 (dict, has `"keys"`, `"keys"` is a list),
returning the key list. -/
def jwksTop (j : Json) : Except String (List Json) :=
  match j with
  | .obj _ =>
    match j.get "keys" with
    | none => .error "Invalid JWKS format: missing 'keys' field"
    | some (.arr keys) => .ok keys
    | some _ => .error "Invalid JWKS format: 'keys' must be a list"
  | _ => .error "Invalid JWKS format: expected dict"

/-- The full structural validation that `verify_jwt` applies to a key-set
(`main.py` lines 113-136): top-level shape plus every key entry. -/
def jwksStructValid (j : Json) : Bool :=
  match jwksTop j with
  | .ok keys => keys.all keyValid
  | .error _ => false

/-- Outcome of one `verify_jwt` call: the returned payload, a raised
`HTTPException`, or an uncaught Python exception (HTTP 500 crash). -/
inductive VResult where
  | ok (payload : Json)
  | httpError (status : Nat) (detail : String)
  | crash (msg : String)

/-- `main.py` lines 94-102: presence check (`if not auth:` treats `None`
and the empty string alike), then `parts = auth.split()` and
`if parts[0].lower() != "bearer" or len(parts) != 2:`.  `parts[0]` is
evaluated before `len(parts)` is compared, so a header splitting to zero
tokens raises an uncaught `IndexError`.  On success returns `parts[1]`. -/
def headerToken (auth : Option String) : Except VResult String :=
  match auth with
  | none => .error (.httpError 401 "Authorization header missing")
  | some a =>
    if a == "" then .error (.httpError 401 "Authorization header missing")
    else
      match pySplit a with
      | [] => .error (.crash "IndexError: list index out of range")
      | p0 :: rest =>
        if pyLower p0 != "bearer" || (p0 :: rest).length != 2 then
          .error (.httpError 401 "Invalid Authorization header")
        else .ok ((p0 :: rest).getD 1 "")

/-- `main.py` lines 104-163 after the token is extracted: fetch the JWKS
(possibly a 503), decode the unverified token header via the `jose` oracle
`gh`, run the structural checks and the key-scan loop, and finally call the
`jose` decode oracle `dec` (RS256 + audience + issuer + expiry). -/
def afterToken (gh : String → Except String Json)
    (dec : String → RsaKey → Except String Json)
    (token : String) (now : Nat) (fetch : Except String Json)
    (c : Cache) : VResult × Cache :=
  let j := get_jwks now fetch c
  match j.result with
  | .error he => (.httpError he.status he.detail, j.cache)
  | .ok jwks =>
    match gh token with
    | .error _ => (.httpError 401 "Malformed token: unable to read header", j.cache)
    | .ok hdr =>
      match jwksTop jwks with
      | .error d => (.httpError 401 d, j.cache)
      | .ok keys =>
        match scanKeys (hdr.get "kid") keys with
        | .malformed d => (.httpError 401 d, j.cache)
        | .noMatch => (.httpError 401 "Invalid token header", j.cache)
        | .found rk =>
          match dec token rk with
          | .ok payload => (.ok payload, j.cache)
          | .error e => (.httpError 401 ("Token verification failed: " ++ e), j.cache)

/-- `verify_jwt` (`main.py` lines 91-163), parameterised by the `jose`
oracles, the request's `Authorization` header, the current time, the
network, and the cache state; returns the outcome and the cache state
afterwards. -/
def verify_jwt (gh : String → Except String Json)
    (dec : String → RsaKey → Except String Json)
    (auth : Option String) (now : Nat) (fetch : Except String Json)
    (c : Cache) : VResult × Cache :=
  match headerToken auth with
  | .error v => (v, c)
  | .ok token => afterToken gh dec token now fetch c

/-- An `Item` row (`models.Item`: integer id, name, description). -/
structure Item where
  id : Nat
  name : String
  description : String
deriving DecidableEq

/-- `schemas.ItemUpdate`: all fields optional for partial updates. -/
structure ItemUpdate where
  name : Option String
  description : Option String

/-- Outcome of a CRUD call: the returned item, Python `None` (not found),
or a raised `Exception` with the given message. -/
inductive CrudResult where
  | ok (item : Item)
  | notFound
  | failure (msg : String)
deriving DecidableEq

/-- `crud.update_item` (`crud.py` lines 26-54).  The database is a list of
rows; `commitFails` says whether `db.commit()` raises, in which case the
transaction is rolled back and the state is unchanged.  Only fields that
are provided (not `None`) are updated. -/
def update_item (db : List Item) (item_id : Nat) (item : ItemUpdate)
    (commitFails : Bool) : CrudResult × List Item :=
  match db.find? (fun it => it.id == item_id) with
  | none => (.notFound, db)
  | some dbItem =>
    let updated : Item :=
      { dbItem with
        name := item.name.getD dbItem.name
        description := item.description.getD dbItem.description }
    if commitFails then (.failure "Failed to update item", db)
    else (.ok updated, db.map (fun it => if it.id == item_id then updated else it))

/-- `crud.delete_item` (`crud.py` lines 56-78).  Returns the deleted item,
`None` when absent, or rolls back and raises on commit failure. -/
def delete_item (db : List Item) (item_id : Nat)
    (commitFails : Bool) : CrudResult × List Item :=
  match db.find? (fun it => it.id == item_id) with
  | none => (.notFound, db)
  | some dbItem =>
    if commitFails then (.failure "Failed to delete item", db)
    else (.ok dbItem, db.eraseP (fun it => it.id == item_id))

/-! ### Concrete fixtures used by witnesses and counterexamples -/

/-- A well-formed key entry with `kid = "k1"`. -/
def goodKey : Json :=
  Json.obj [("kid", Json.str "k1"), ("kty", Json.str "RSA"),
            ("use", Json.str "sig"), ("n", Json.str "mod"),
            ("e", Json.str "AQAB")]

/-- A key entry missing the `"kty"`, `"use"`, `"n"` and `"e"` fields. -/
def badKey : Json := Json.obj [("kid", Json.str "k2")]

/-- A structurally valid key-set holding only `goodKey`. -/
def goodJwks : Json := Json.obj [("keys", Json.arr [goodKey])]

/-- A key-set whose second entry is malformed, the first entry matching. -/
def mixedJwks : Json := Json.obj [("keys", Json.arr [goodKey, badKey])]

/-- The empty initial cache (`main.py` line 72). -/
def emptyCache : Cache := ⟨none, none⟩

/-- A `jose` header oracle that always fails (malformed token). -/
def ghFail : String → Except String Json := fun _ => .error "parse"

/-- A decode oracle that always fails (bad signature). -/
def decFail : String → RsaKey → Except String Json := fun _ _ => .error "sig"

/-- A `jose` header oracle returning a header with `kid = "k1"`. -/
def ghK1 : String → Except String Json :=
  fun _ => .ok (Json.obj [("kid", Json.str "k1")])

/-- A claims payload with subject `"alice"`. -/
def subPayload : Json := Json.obj [("sub", Json.str "alice")]

/-- A decode oracle accepting every token, returning `subPayload`. -/
def decOk : String → RsaKey → Except String Json := fun _ _ => .ok subPayload

/-- A `jose` header oracle returning a header with `kid = "zzz"`, matching
no key of the fixtures. -/
def ghZ : String → Except String Json :=
  fun _ => .ok (Json.obj [("kid", Json.str "zzz")])

/-- A key-set whose first entry is malformed and whose second entry
matches `kid = "k1"`. -/
def swappedJwks : Json := Json.obj [("keys", Json.arr [badKey, goodKey])]

/-- A one-row database fixture. -/
def dbW : List Item := [⟨1, "a", "b"⟩]

/-! ### Helper lemmas -/

/-- Splitting the empty string yields no tokens. -/
theorem pySplit_empty : pySplit "" = [] := rfl

/-- A key passing `keyValid` passes `checkKey`. -/
theorem checkKey_of_keyValid (k : Json) (h : keyValid k = true) :
    checkKey k = Except.ok () := by
  cases hc : checkKey k with
  | ok u => cases u; rfl
  | error d =>
    simp only [keyValid] at h
    rw [hc] at h
    simp at h

/-- On a cache miss, a successful fetch is cached wholesale with
`expires_at = now + 1 hour` and returned. -/
theorem get_jwks_fetch_ok (now : Nat) (body : Json) (c : Cache)
    (hmiss : cacheHit now c = false) :
    get_jwks now (Except.ok body) c
      = ⟨Except.ok body, ⟨some body, some (now + 3600)⟩, true⟩ := by
  simp [get_jwks, hmiss]

/-- On a cache miss, a failed fetch raises a 503 and leaves the cache
unchanged. -/
theorem get_jwks_fetch_error (now : Nat) (e : String) (c : Cache)
    (hmiss : cacheHit now c = false) :
    get_jwks now (Except.error e) c
      = ⟨Except.error ⟨503, "Unable to fetch JWKS: " ++ e⟩, c, true⟩ := by
  simp [get_jwks, hmiss]

/-- On a cache hit (truthy data, expiry set and in the future), the cached
data is returned with no fetch and the cache is untouched. -/
theorem get_jwks_hit (now : Nat) (fetch : Except String Json) (c : Cache)
    (dta : Json) (ex : Nat)
    (hd : c.data = some dta) (htr : dta.truthy = true)
    (hex : c.expiresAt = some ex) (hnow : now < ex) :
    get_jwks now fetch c = ⟨Except.ok dta, c, false⟩ := by
  have hh : cacheHit now c = true := by
    simp [cacheHit, hd, htr, hex, hnow]
  simp [get_jwks, hh, hd]

/-- A well-formed bearer header reaches the token-extraction stage. -/
theorem headerToken_ok (a p0 t : String)
    (hs : pySplit a = [p0, t]) (hb : pyLower p0 = "bearer") :
    headerToken (some a) = Except.ok t := by
  have ha : a ≠ "" := by
    intro h
    rw [h, pySplit_empty] at hs
    exact List.noConfusion hs
  have hbeq : (a == "") = false := by
    simp [ha]
  simp [headerToken, hbeq, hs, hb]

/-- `verify_jwt` after a successful header parse is `afterToken`. -/
theorem verify_jwt_token (gh : String → Except String Json)
    (dec : String → RsaKey → Except String Json)
    (a t : String) (now : Nat) (fetch : Except String Json) (c : Cache)
    (hok : headerToken (some a) = Except.ok t) :
    verify_jwt gh dec (some a) now fetch c = afterToken gh dec t now fetch c := by
  simp only [verify_jwt, hok]

/-- When the key-set fetch fails, `afterToken` surfaces the raised
`HTTPException`. -/
theorem afterToken_fetchError (gh : String → Except String Json)
    (dec : String → RsaKey → Except String Json)
    (t : String) (now : Nat) (fetch : Except String Json) (c c2 : Cache)
    (he : HttpError) (b : Bool)
    (hj : get_jwks now fetch c = ⟨Except.error he, c2, b⟩) :
    afterToken gh dec t now fetch c = (.httpError he.status he.detail, c2) := by
  simp only [afterToken, hj]

/-- When the fetch succeeds, the token header decodes, and the top-level
structural checks fail, `afterToken` raises the 401 structural error. -/
theorem afterToken_topError (gh : String → Except String Json)
    (dec : String → RsaKey → Except String Json)
    (t : String) (now : Nat) (fetch : Except String Json) (c c2 : Cache)
    (body hdr : Json) (b : Bool) (d : String)
    (hj : get_jwks now fetch c = ⟨Except.ok body, c2, b⟩)
    (hgh : gh t = Except.ok hdr) (htop : jwksTop body = Except.error d) :
    afterToken gh dec t now fetch c = (.httpError 401 d, c2) := by
  simp only [afterToken, hj, hgh, htop]

/-- When the fetch succeeds, the token header decodes, and the top-level
structural checks pass, `afterToken` is decided by the key-scan loop and
the decode oracle. -/
theorem afterToken_scan (gh : String → Except String Json)
    (dec : String → RsaKey → Except String Json)
    (t : String) (now : Nat) (fetch : Except String Json) (c c2 : Cache)
    (body hdr : Json) (b : Bool) (keys : List Json)
    (hj : get_jwks now fetch c = ⟨Except.ok body, c2, b⟩)
    (hgh : gh t = Except.ok hdr) (htop : jwksTop body = Except.ok keys) :
    afterToken gh dec t now fetch c
      = (match scanKeys (hdr.get "kid") keys with
         | .malformed d => (VResult.httpError 401 d, c2)
         | .noMatch => (VResult.httpError 401 "Invalid token header", c2)
         | .found rk =>
           match dec t rk with
           | .ok payload => (VResult.ok payload, c2)
           | .error e2 =>
             (VResult.httpError 401 ("Token verification failed: " ++ e2), c2)) := by
  simp only [afterToken, hj, hgh, htop]

/-- On a key list whose entries all pass the strict schema, the scan loop
selects exactly the first `kid` match (or reports no match). -/
theorem scanKeys_eq_find (target : Option Json) (keys : List Json)
    (hv : ∀ k ∈ keys, keyValid k = true) :
    scanKeys target keys
      = (match keys.find? (fun k => kidMatches k target) with
         | some k => ScanResult.found (rsaKeyOf k)
         | none => ScanResult.noMatch) := by
  induction keys with
  | nil => rfl
  | cons k ks ih =>
    have hck : checkKey k = Except.ok () :=
      checkKey_of_keyValid k (hv k (List.mem_cons_self k ks))
    have ihv : ∀ x ∈ ks, keyValid x = true :=
      fun x hx => hv x (List.mem_cons_of_mem k hx)
    by_cases hm : kidMatches k target = true
    · simp [scanKeys, hck, hm, List.find?]
    · have hmf : kidMatches k target = false := by
        revert hm
        cases kidMatches k target <;> simp
      simp [scanKeys, hck, hmf, List.find?, ih ihv]

/-- The scan loop raises the first malformed entry's error whenever every
earlier entry is valid and does not match the target `kid`. -/
theorem scanKeys_malformed (target : Option Json) (pre rest2 : List Json)
    (bad : Json) (d : String)
    (hpre : ∀ k ∈ pre, keyValid k = true ∧ kidMatches k target = false)
    (hbad : checkKey bad = Except.error d) :
    scanKeys target (pre ++ bad :: rest2) = .malformed d := by
  induction pre with
  | nil => simp [scanKeys, hbad]
  | cons k ks ih =>
    obtain ⟨hk, hm⟩ := hpre k (List.mem_cons_self k ks)
    have hck : checkKey k = Except.ok () := checkKey_of_keyValid k hk
    have ihp : ∀ x ∈ ks, keyValid x = true ∧ kidMatches x target = false :=
      fun x hx => hpre x (List.mem_cons_of_mem k hx)
    simp [scanKeys, hck, hm, ih ihp]

/-! ### Claim theorems -/

/-- Claim C1 (code evaluated at the failing input): for a present
whitespace-only `Authorization` header, `auth.split()` yields zero tokens
and the scheme check `parts[0].lower()` is evaluated before
`len(parts) != 2`, so `verify_jwt` raises an uncaught `IndexError`
(a crash) instead of a 401 `AuthError`, for every oracle, clock, network
and cache state. -/
theorem c1_whitespace_header_crashes (gh : String → Except String Json)
    (dec : String → RsaKey → Except String Json)
    (now : Nat) (fetch : Except String Json) (c : Cache) :
    verify_jwt gh dec (some " ") now fetch c
      = (.crash "IndexError: list index out of range", c) := rfl

/-- Claim C10: an `Authorization` header present but equal to the empty
string is treated by `if not auth:` exactly like an absent header:
`verify_jwt` fails with the `missing_header` 401 (detail
`"Authorization header missing"`), not with the `malformed_header` 401. -/
theorem c10_empty_header_is_missing (gh : String → Except String Json)
    (dec : String → RsaKey → Except String Json)
    (now : Nat) (fetch : Except String Json) (c : Cache) :
    verify_jwt gh dec (some "") now fetch c
      = (.httpError 401 "Authorization header missing", c) ∧
    "Authorization header missing" ≠ "Invalid Authorization header" :=
  ⟨rfl, by decide⟩

/-- Claim C2, counterexample: starting from a cache holding the valid
key-set `goodJwks` (expired, so a fetch occurs), a fetch whose body
`Json.num 5` fails structural validation nevertheless replaces both the
cached data and the expiry — the claim says the cache is replaced only
after validation passes and is left unchanged otherwise. -/
theorem c2_invalid_body_replaces_cache :
    jwksStructValid (Json.num 5) = false ∧
    jwksStructValid goodJwks = true ∧
    get_jwks 10 (Except.ok (Json.num 5)) ⟨some goodJwks, some 5⟩
      = ⟨Except.ok (Json.num 5), ⟨some (Json.num 5), some 3610⟩, true⟩ :=
  ⟨rfl, rfl, rfl⟩

/-- Claim C2 as amended: on every cache miss, `get_jwks` replaces the
cache with whatever body the fetch decoded — with no structural
validation — setting `expires_at = now + 1 hour`; only a transport-level
fetch failure leaves the cache unchanged (raising a 503).  Structural
validation happens later, inside `verify_jwt`. -/
theorem c2_cache_replaced_on_any_fetched_body (now : Nat) (c : Cache)
    (body : Json) (e : String) (hmiss : cacheHit now c = false) :
    get_jwks now (Except.ok body) c
      = ⟨Except.ok body, ⟨some body, some (now + 3600)⟩, true⟩ ∧
    get_jwks now (Except.error e) c
      = ⟨Except.error ⟨503, "Unable to fetch JWKS: " ++ e⟩, c, true⟩ :=
  ⟨get_jwks_fetch_ok now body c hmiss, get_jwks_fetch_error now e c hmiss⟩

/-- Claim C2 witness: the amended theorem evaluated on the initial cache
and the fixture key-set. -/
theorem c2_witness :
    get_jwks 0 (Except.ok goodJwks) emptyCache
      = ⟨Except.ok goodJwks, ⟨some goodJwks, some 3600⟩, true⟩ ∧
    get_jwks 0 (Except.error "net") emptyCache
      = ⟨Except.error ⟨503, "Unable to fetch JWKS: " ++ "net"⟩, emptyCache, true⟩ :=
  c2_cache_replaced_on_any_fetched_body 0 emptyCache goodJwks "net" rfl

/-- Claim C3, counterexample: a fetched key-set failing structural
validation (`Json.num 5`) surfaces from `verify_jwt` as a 401
`Invalid JWKS format` error, not as the 503-equivalent
`keyset_unavailable` outcome the claim requires for the structural case. -/
theorem c3_malformed_keyset_is_401 :
    (verify_jwt ghK1 decFail (some "Bearer tok") 0 (Except.ok (Json.num 5))
        emptyCache).1
      = VResult.httpError 401 "Invalid JWKS format: expected dict" ∧
    (401 : Nat) ≠ 503 :=
  ⟨rfl, by decide⟩

/-- Claim C3 as amended: for a well-formed bearer header and a cache miss,
a transport-level fetch failure surfaces as the 503
`Unable to fetch JWKS` error, while a fetched body that fails the
top-level structural checks surfaces as a 401 `Invalid JWKS format`
error — a 401-class outcome, distinct from the 503 network case. -/
theorem c3_network_503_structural_401 (gh : String → Except String Json)
    (dec : String → RsaKey → Except String Json)
    (a p0 t : String) (now : Nat) (c : Cache) (e : String)
    (body hdr : Json) (d : String)
    (hs : pySplit a = [p0, t]) (hb : pyLower p0 = "bearer")
    (hmiss : cacheHit now c = false) :
    (verify_jwt gh dec (some a) now (Except.error e) c).1
      = VResult.httpError 503 ("Unable to fetch JWKS: " ++ e) ∧
    (gh t = Except.ok hdr → jwksTop body = Except.error d →
      (verify_jwt gh dec (some a) now (Except.ok body) c).1
        = VResult.httpError 401 d) := by
  have hok := headerToken_ok a p0 t hs hb
  constructor
  · rw [verify_jwt_token gh dec a t now (Except.error e) c hok,
      afterToken_fetchError gh dec t now (Except.error e) c c
        ⟨503, "Unable to fetch JWKS: " ++ e⟩ true
        (get_jwks_fetch_error now e c hmiss)]
  · intro hgh htop
    rw [verify_jwt_token gh dec a t now (Except.ok body) c hok,
      afterToken_topError gh dec t now (Except.ok body) c
        ⟨some body, some (now + 3600)⟩ body hdr true d
        (get_jwks_fetch_ok now body c hmiss) hgh htop]

/-- Claim C3 witness: the amended theorem evaluated at a concrete header,
network error and structurally invalid body. -/
theorem c3_witness :
    (verify_jwt ghK1 decFail (some "Bearer abc") 0 (Except.error "net")
        emptyCache).1
      = VResult.httpError 503 ("Unable to fetch JWKS: " ++ "net") ∧
    (verify_jwt ghK1 decFail (some "Bearer abc") 0 (Except.ok (Json.num 7))
        emptyCache).1
      = VResult.httpError 401 "Invalid JWKS format: expected dict" := by
  have h := c3_network_503_structural_401 ghK1 decFail "Bearer abc" "Bearer"
    "abc" 0 emptyCache "net" (Json.num 7)
    (Json.obj [("kid", Json.str "k1")]) "Invalid JWKS format: expected dict"
    rfl rfl rfl
  exact ⟨h.1, h.2 rfl rfl⟩

/-- Claim C4, counterexample: the cache-hit test uses Python truthiness of
the cached data, so a cache holding the falsy body `{}` with
`now = 0 < 100 = expires_at` — a "cache state holding data within the TTL
window" — still performs a network fetch and replaces the cache. -/
theorem c4_falsy_cached_data_refetches :
    (0 : Nat) < 100 ∧
    get_jwks 0 (Except.ok goodJwks) ⟨some (Json.obj []), some 100⟩
      = ⟨Except.ok goodJwks, ⟨some goodJwks, some 3600⟩, true⟩ :=
  ⟨by decide, rfl⟩

/-- Claim C4 as amended: for every cache state holding truthy data with
`now < expires_at`, `get_jwks` returns the cached data with no network
fetch and an unchanged cache; hence two successive calls within the TTL
window return identical data and the second call performs no fetch. -/
theorem c4_ttl_window_no_refetch (now1 now2 : Nat)
    (f1 f2 : Except String Json) (c : Cache) (dta : Json) (ex : Nat)
    (hd : c.data = some dta) (htr : dta.truthy = true)
    (hex : c.expiresAt = some ex) (h1 : now1 < ex) (h2 : now2 < ex) :
    get_jwks now1 f1 c = ⟨Except.ok dta, c, false⟩ ∧
    get_jwks now2 f2 (get_jwks now1 f1 c).cache = ⟨Except.ok dta, c, false⟩ := by
  have e1 := get_jwks_hit now1 f1 c dta ex hd htr hex h1
  have e2 := get_jwks_hit now2 f2 c dta ex hd htr hex h2
  refine ⟨e1, ?_⟩
  rw [e1]
  exact e2

/-- Claim C4 witness: the amended theorem evaluated on a cache holding the
fixture key-set, at two clock values inside the TTL window, with a network
that would fail if consulted. -/
theorem c4_witness :
    get_jwks 1 (Except.error "down") (⟨some goodJwks, some 10⟩ : Cache)
      = ⟨Except.ok goodJwks, ⟨some goodJwks, some 10⟩, false⟩ ∧
    get_jwks 2 (Except.error "down")
        (get_jwks 1 (Except.error "down") (⟨some goodJwks, some 10⟩ : Cache)).cache
      = ⟨Except.ok goodJwks, ⟨some goodJwks, some 10⟩, false⟩ :=
  c4_ttl_window_no_refetch 1 2 (Except.error "down") (Except.error "down")
    ⟨some goodJwks, some 10⟩ goodJwks 10 rfl rfl rfl (by decide) (by decide)

/-- Claim C5, counterexample: the header `"\t"` is present and non-empty
and its whitespace-split does not yield two tokens, so the claim requires
the `malformed_header` failure; the code instead evaluates `parts[0]` on
the empty split result and crashes with an uncaught `IndexError`. -/
theorem c5_whitespace_header_not_malformed :
    (verify_jwt ghFail decFail (some "\t") 0 (Except.error "net") emptyCache).1
      = VResult.crash "IndexError: list index out of range" ∧
    VResult.crash "IndexError: list index out of range"
      ≠ VResult.httpError 401 "Invalid Authorization header" :=
  ⟨rfl, by simp⟩

/-- Claim C5 as amended: for every present header whose whitespace-split
yields at least one token, `verify_jwt` fails with the `malformed_header`
401 (detail `"Invalid Authorization header"`) — for every oracle, clock,
network and cache state — exactly when the split does not yield two tokens
with the first case-insensitively equal to `"bearer"`.  (A header whose
split yields zero tokens instead crashes with an uncaught `IndexError`.) -/
theorem c5_malformed_header_iff (a p0 : String) (rest : List String)
    (hs : pySplit a = p0 :: rest) :
    (∀ gh dec now fetch c,
        (verify_jwt gh dec (some a) now fetch c).1
          = VResult.httpError 401 "Invalid Authorization header")
      ↔ (pyLower p0 ≠ "bearer" ∨ rest.length ≠ 1) := by
  constructor
  · intro hall
    by_contra hno
    push_neg at hno
    obtain ⟨hb, hl⟩ := hno
    obtain ⟨t, rfl⟩ := List.length_eq_one.mp hl
    have hok := headerToken_ok a p0 t hs hb
    have hv := hall ghK1 decOk 0 (Except.ok goodJwks) emptyCache
    rw [verify_jwt_token ghK1 decOk a t 0 (Except.ok goodJwks) emptyCache hok] at hv
    rw [show afterToken ghK1 decOk t 0 (Except.ok goodJwks) emptyCache
        = (VResult.ok subPayload, ⟨some goodJwks, some 3600⟩) from rfl] at hv
    simp at hv
  · intro hcond gh dec now fetch c
    have ha : a ≠ "" := by
      intro h
      rw [h, pySplit_empty] at hs
      exact List.noConfusion hs
    have hbeq : (a == "") = false := by simp [ha]
    simp [verify_jwt, headerToken, hbeq, hs]
    rw [if_pos hcond]

/-- Claim C5 witness: the amended theorem applied to the header
`"Basic abc123"`, which fails with the `malformed_header` 401. -/
theorem c5_witness :
    (verify_jwt ghFail decFail (some "Basic abc123") 0 (Except.error "net")
        emptyCache).1
      = VResult.httpError 401 "Invalid Authorization header" :=
  (c5_malformed_header_iff "Basic abc123" "Basic" ["abc123"] rfl).mpr
    (Or.inl (by decide)) ghFail decFail 0 (Except.error "net") emptyCache

/-- Claim C6: on a key list whose entries all pass the strict schema,
`verify_jwt` selects the first entry in list order whose `kid` equals the
token header's `kid` (the scan equals `List.find?`, and the decode oracle
is invoked on that entry's key), and when no entry matches it fails with
the `no_matching_key` 401 (detail `"Invalid token header"`). -/
theorem c6_first_match_or_no_matching_key
    (gh : String → Except String Json)
    (dec : String → RsaKey → Except String Json)
    (a p0 t : String) (now : Nat) (c : Cache)
    (jwks hdr : Json) (keys : List Json) (target : Option Json)
    (hs : pySplit a = [p0, t]) (hb : pyLower p0 = "bearer")
    (hmiss : cacheHit now c = false)
    (hgh : gh t = Except.ok hdr) (htop : jwksTop jwks = Except.ok keys)
    (htgt : hdr.get "kid" = target)
    (hv : ∀ k ∈ keys, keyValid k = true) :
    scanKeys target keys
      = (match keys.find? (fun k => kidMatches k target) with
         | some k => ScanResult.found (rsaKeyOf k)
         | none => ScanResult.noMatch) ∧
    (keys.find? (fun k => kidMatches k target) = none →
      (verify_jwt gh dec (some a) now (Except.ok jwks) c).1
        = VResult.httpError 401 "Invalid token header") ∧
    (∀ k2 p, keys.find? (fun k => kidMatches k target) = some k2 →
      dec t (rsaKeyOf k2) = Except.ok p →
      (verify_jwt gh dec (some a) now (Except.ok jwks) c).1
        = VResult.ok p) := by
  have hok := headerToken_ok a p0 t hs hb
  have hred := afterToken_scan gh dec t now (Except.ok jwks) c
    ⟨some jwks, some (now + 3600)⟩ jwks hdr true keys
    (get_jwks_fetch_ok now jwks c hmiss) hgh htop
  have hscan := scanKeys_eq_find target keys hv
  refine ⟨hscan, ?_, ?_⟩
  · intro hnone
    rw [verify_jwt_token gh dec a t now (Except.ok jwks) c hok, hred, htgt,
      hscan, hnone]
  · intro k2 p hfind hdec
    rw [verify_jwt_token gh dec a t now (Except.ok jwks) c hok, hred, htgt,
      hscan, hfind]
    simp [hdec]

/-- Claim C6 witness: a valid token header whose `kid = "zzz"` is absent
from the fixture key-set fails with the `no_matching_key` 401. -/
theorem c6_witness :
    (verify_jwt ghZ decFail (some "Bearer tok") 0 (Except.ok goodJwks)
        emptyCache).1
      = VResult.httpError 401 "Invalid token header" := by
  have hv : ∀ k ∈ [goodKey], keyValid k = true := by
    intro k hk
    rw [List.mem_singleton] at hk
    subst hk
    rfl
  exact (c6_first_match_or_no_matching_key ghZ decFail "Bearer tok" "Bearer"
    "tok" 0 emptyCache goodJwks (Json.obj [("kid", Json.str "zzz")]) [goodKey]
    (some (Json.str "zzz")) rfl rfl rfl rfl rfl rfl hv).2.1 rfl

/-- Claim C7, counterexample: the key-scan loop `break`s at the first
`kid` match, so the malformed entry `badKey` positioned after the matching
entry of `mixedJwks` is never inspected: verification succeeds instead of
hard-failing with the `MalformedKeyset` 401 the claim requires regardless
of position. -/
theorem c7_malformed_entry_after_match_skipped :
    keyValid badKey = false ∧
    (verify_jwt ghK1 decOk (some "Bearer tok") 0 (Except.ok mixedJwks)
        emptyCache).1
      = VResult.ok subPayload :=
  ⟨rfl, rfl⟩

/-- Claim C7 as amended: a key entry failing the strict schema hard-fails
verification with its 401 `Invalid JWKS format` error whenever it occurs
before the first entry matching the token's `kid` (every earlier entry
valid and non-matching); entries after the first match are never
inspected. -/
theorem c7_strict_schema_before_match
    (gh : String → Except String Json)
    (dec : String → RsaKey → Except String Json)
    (a p0 t : String) (now : Nat) (c : Cache)
    (body hdr : Json) (pre rest2 : List Json) (bad : Json) (d : String)
    (target : Option Json)
    (hs : pySplit a = [p0, t]) (hb : pyLower p0 = "bearer")
    (hmiss : cacheHit now c = false)
    (hgh : gh t = Except.ok hdr)
    (htop : jwksTop body = Except.ok (pre ++ bad :: rest2))
    (htgt : hdr.get "kid" = target)
    (hpre : ∀ k ∈ pre, keyValid k = true ∧ kidMatches k target = false)
    (hbad : checkKey bad = Except.error d) :
    (verify_jwt gh dec (some a) now (Except.ok body) c).1
      = VResult.httpError 401 d := by
  have hok := headerToken_ok a p0 t hs hb
  have hred := afterToken_scan gh dec t now (Except.ok body) c
    ⟨some body, some (now + 3600)⟩ body hdr true (pre ++ bad :: rest2)
    (get_jwks_fetch_ok now body c hmiss) hgh htop
  rw [verify_jwt_token gh dec a t now (Except.ok body) c hok, hred, htgt,
    scanKeys_malformed target pre rest2 bad d hpre hbad]

/-- Claim C7 witness: with the malformed entry first (`swappedJwks`),
verification hard-fails with the strict-schema 401. -/
theorem c7_witness :
    (verify_jwt ghK1 decOk (some "Bearer tok") 0 (Except.ok swappedJwks)
        emptyCache).1
      = VResult.httpError 401
          "Invalid JWKS format: missing required field 'kty' in key" := by
  have hpre : ∀ k ∈ ([] : List Json),
      keyValid k = true ∧ kidMatches k (some (Json.str "k1")) = false := by
    intro k hk
    exact absurd hk (List.not_mem_nil k)
  exact c7_strict_schema_before_match ghK1 decOk "Bearer tok" "Bearer" "tok" 0
    emptyCache swappedJwks (Json.obj [("kid", Json.str "k1")]) [] [goodKey]
    badKey "Invalid JWKS format: missing required field 'kty' in key"
    (some (Json.str "k1")) rfl rfl rfl rfl rfl rfl hpre rfl

/-- Claim C8: for a well-formed bearer header, a cached (unexpired,
truthy) key-set in which the scan selects a key, and a token the `jose`
decode oracle accepts under the configured audience and issuer (a
correctly issued, unexpired token), `verify_jwt` succeeds, returns the
decoded claims mapping unchanged — containing the expected subject — and
leaves the cache untouched. -/
theorem c8_round_trip
    (gh : String → Except String Json)
    (dec : String → RsaKey → Except String Json)
    (a p0 t : String) (now ex : Nat) (fetch : Except String Json) (c : Cache)
    (jwks hdr claims : Json) (keys : List Json) (rk : RsaKey)
    (subject : String)
    (hs : pySplit a = [p0, t]) (hb : pyLower p0 = "bearer")
    (hd : c.data = some jwks) (htr : jwks.truthy = true)
    (hex : c.expiresAt = some ex) (hnow : now < ex)
    (hgh : gh t = Except.ok hdr) (htop : jwksTop jwks = Except.ok keys)
    (hscan : scanKeys (hdr.get "kid") keys = .found rk)
    (hdec : dec t rk = Except.ok claims)
    (hsub : claims.get "sub" = some (Json.str subject)) :
    verify_jwt gh dec (some a) now fetch c = (VResult.ok claims, c) ∧
    claims.get "sub" = some (Json.str subject) := by
  have hok := headerToken_ok a p0 t hs hb
  have hred := afterToken_scan gh dec t now fetch c c jwks hdr false keys
    (get_jwks_hit now fetch c jwks ex hd htr hex hnow) hgh htop
  refine ⟨?_, hsub⟩
  rw [verify_jwt_token gh dec a t now fetch c hok, hred, hscan]
  simp [hdec]

/-- Claim C8 witness: a concrete round trip against the cached fixture
key-set, with the network down (no fetch is needed on a cache hit). -/
theorem c8_witness :
    verify_jwt ghK1 decOk (some "Bearer tok") 0 (Except.error "down")
        (⟨some goodJwks, some 10⟩ : Cache)
      = (VResult.ok subPayload, (⟨some goodJwks, some 10⟩ : Cache)) ∧
    subPayload.get "sub" = some (Json.str "alice") :=
  c8_round_trip ghK1 decOk "Bearer tok" "Bearer" "tok" 0 10
    (Except.error "down") ⟨some goodJwks, some 10⟩ goodJwks
    (Json.obj [("kid", Json.str "k1")]) subPayload [goodKey]
    (rsaKeyOf goodKey) "alice" rfl rfl rfl rfl rfl (by decide) rfl rfl rfl rfl
    rfl

/-- Claim C9: for both `update_item` and `delete_item`, the not-found
outcome returns `CrudResult.notFound` (Python `None`) with the database
unchanged; a database commit failure is caught, rolled back (database
unchanged) and surfaced as the generic `CrudResult.failure` signal; and
the two signals are distinct constructors, so callers can distinguish
"resource absent" from "operation failed". -/
theorem c9_not_found_vs_failure (db : List Item) (i : Nat) (u : ItemUpdate) :
    (db.find? (fun it => it.id == i) = none →
      ∀ cf, update_item db i u cf = (CrudResult.notFound, db) ∧
        delete_item db i cf = (CrudResult.notFound, db)) ∧
    (∀ x, db.find? (fun it => it.id == i) = some x →
      update_item db i u true = (CrudResult.failure "Failed to update item", db) ∧
      delete_item db i true = (CrudResult.failure "Failed to delete item", db)) ∧
    (∀ m, CrudResult.notFound ≠ CrudResult.failure m) := by
  refine ⟨?_, ?_, ?_⟩
  · intro h cf
    constructor
    · simp [update_item, h]
    · simp [delete_item, h]
  · intro x h
    constructor
    · simp [update_item, h]
    · simp [delete_item, h]
  · intro m h
    exact CrudResult.noConfusion h

/-- Claim C9 witness: on the one-row fixture database, a missing id
yields `notFound` with the state unchanged, and a commit failure on an
existing id yields the generic failure with the state unchanged. -/
theorem c9_witness :
    update_item dbW 2 ⟨none, none⟩ true = (CrudResult.notFound, dbW) ∧
    update_item dbW 1 ⟨some "c", none⟩ true
      = (CrudResult.failure "Failed to update item", dbW) ∧
    delete_item dbW 1 true = (CrudResult.failure "Failed to delete item", dbW) := by
  have h2 := c9_not_found_vs_failure dbW 2 ⟨none, none⟩
  have h1 := c9_not_found_vs_failure dbW 1 ⟨some "c", none⟩
  exact ⟨(h2.1 rfl true).1, (h1.2.1 ⟨1, "a", "b"⟩ rfl).1,
    (h1.2.1 ⟨1, "a", "b"⟩ rfl).2⟩

end CrudApi
